import Mathlib

/-!
Verification of the sentinel-io fleet-monitoring core against its
natural-language specification.

The definitions below are a shallow embedding of the Python sources:
  - src/backend/state_manager.py   (StateManager: workers, history, ledger)
  - src/workers/worker.py          (DigitalTwin physics, telemetry signing)
  - src/backend/agents/implementations.py
        (WatchdogAgent, AccountantAgent, EnforcerAgent)

Python floats are embedded as exact rationals, Python dicts that preserve
insertion order as association lists, and Python str keys as Lean Strings.
External library calls (HMAC-SHA-256, numeric-to-string formatting) are
parameters of the relevant definitions.
-/

namespace Sentinel

/-- Decimal round-half-to-even, embedding Python's `round(x, n)` on the exact
rational value of the float argument. -/
def pyRound (q : ℚ) (n : ℕ) : ℚ :=
  let m : ℚ := q * (10 : ℚ) ^ n
  let f : ℤ := ⌊m⌋
  let r : ℤ :=
    if m - f < 1/2 then f
    else if m - f > 1/2 then f + 1
    else if f % 2 = 0 then f else f + 1
  (r : ℚ) / (10 : ℚ) ^ n

/-- One telemetry record, models the `TelemetryData` pydantic model of
src/backend/models.py (the body of a telemetry packet / one entry of a
telemetry snapshot).  The datetime `timestamp` field is omitted: no code
relevant to the claims reads it. -/
structure TelemetryData where
  worker_id : String
  latency : ℚ
  temperature : ℚ
  gpu_util : ℚ
  fan_speed : ℚ
  clock_speed : ℚ
  integrity : String
deriving DecidableEq, Repr

/-- One entry of `StateManager.workers`, models the dict literal written by
`update_worker_status` / `add_simulated_worker` in src/backend/state_manager.py.
`last_seen` is a wall-clock time in whole seconds. -/
structure WorkerInfo where
  last_seen : ℕ
  data : TelemetryData
  status : String
  lifecycle_state : String
  integrity : String
deriving DecidableEq, Repr

/-- Association list standing for an insertion-ordered Python dict. -/
abbrev Dict (α : Type) := List (String × α)

/-- `d[k] = v` on an insertion-ordered dict: replace in place when the key
exists, append otherwise (Python dicts keep the original position of an
updated key). -/
def dictInsert {α : Type} (k : String) (v : α) : Dict α → Dict α
  | [] => [(k, v)]
  | (k1, v1) :: rest =>
      if k1 = k then (k, v) :: rest else (k1, v1) :: dictInsert k v rest

/-- `d.get(k)` on an association-list dict. -/
def dictGet {α : Type} (k : String) : Dict α → Option α
  | [] => none
  | (k1, v1) :: rest => if k1 = k then some v1 else dictGet k rest

/-- Bounded history push: the two lines of `update_worker_status`
(src/backend/state_manager.py) that append a sample and then `pop(0)` when
the list has grown beyond 60 entries. -/
def pushHistory {α : Type} (h : List α) (x : α) : List α :=
  let h1 := h ++ [x]
  if 60 < h1.length then h1.tail else h1

/-- One ledger transaction, an entry of `StateManager.ledger["history"]`. -/
structure LedgerTx where
  ts : String
  amount : ℚ
  reason : String
deriving DecidableEq, Repr

/-- The tokenomics ledger of src/backend/state_manager.py. -/
structure Ledger where
  balance : ℚ
  slashed : ℚ
  rewards : ℚ
  history : List LedgerTx
deriving DecidableEq, Repr

/-- The ledger as initialised in `StateManager.__init__`. -/
def initialLedger : Ledger := { balance := 5000, slashed := 0, rewards := 0, history := [] }

/-- `StateManager.update_ledger(amount, reason)`: add the amount to the
balance, add `|amount|` to `slashed` when negative and to `rewards`
otherwise, append the transaction, and `pop(0)` when the log exceeds 20
entries.  `ts` is the wall-clock string the source obtains from
`datetime.now()`. -/
def update_ledger (l : Ledger) (amount : ℚ) (reason ts : String) : Ledger :=
  let l1 : Ledger :=
    { l with
      balance := l.balance + amount
      slashed := if amount < 0 then l.slashed + |amount| else l.slashed
      rewards := if amount < 0 then l.rewards else l.rewards + amount }
  let h := l1.history ++ [⟨ts, amount, reason⟩]
  { l1 with history := if 20 < h.length then h.tail else h }

/-- The mutable state of `StateManager` that the claims touch
(agent log bus and chat context omitted: not read by any claim). -/
structure StateM where
  workers : Dict WorkerInfo
  worker_history : Dict (List TelemetryData)
  ledger : Ledger
deriving DecidableEq, Repr

/-- The state as `StateManager.__init__` builds it: no workers, no
history, the initial ledger. -/
def emptyState : StateM :=
  { workers := [], worker_history := [], ledger := initialLedger }

/-- `StateManager.update_worker_status(worker_id, data)` at wall-clock
second `now`: overwrite the worker entry (status "Active", lifecycle
unconditionally "ACTIVE", integrity copied from the sample) and push the
full sample onto the node's bounded history. -/
def update_worker_status (s : StateM) (worker_id : String) (data : TelemetryData)
    (now : ℕ) : StateM :=
  let info : WorkerInfo :=
    { last_seen := now
      data := data
      status := "Active"
      lifecycle_state := "ACTIVE"
      integrity := data.integrity }
  let old := (dictGet worker_id s.worker_history).getD []
  { s with
    workers := dictInsert worker_id info s.workers
    worker_history := dictInsert worker_id (pushHistory old data) s.worker_history }

/-- The placeholder telemetry dict written by `add_simulated_worker`
(temperature 25.0, latency 0.05, fan 0; fields absent from the Python dict
take the defaults downstream readers would supply). -/
def simulatedData (worker_id : String) : TelemetryData :=
  { worker_id := worker_id
    latency := 1/20
    temperature := 25
    gpu_util := 0
    fan_speed := 0
    clock_speed := 100
    integrity := "UNKNOWN" }

/-- `StateManager.add_simulated_worker(worker_id)`: provision a standby
node, lifecycle "IDLE", integrity "VERIFIED". -/
def add_simulated_worker (s : StateM) (worker_id : String) (now : ℕ) : StateM :=
  let info : WorkerInfo :=
    { last_seen := now
      data := simulatedData worker_id
      status := "Active"
      lifecycle_state := "IDLE"
      integrity := "VERIFIED" }
  { s with workers := dictInsert worker_id info s.workers }

/-- Python's `str.upper()` (ASCII case mapping, character by character). -/
def pyUpper (s : String) : String := String.mk (s.data.map Char.toUpper)

/-- Effect of `transition_node` on a single dict entry. -/
def transEntry (worker_id new_state : String) :
    String × WorkerInfo → String × WorkerInfo
  | (k, v) =>
      if k = worker_id then (k, { v with lifecycle_state := pyUpper new_state }) else (k, v)

/-- `StateManager.transition_node(worker_id, new_state)`: when the worker
exists, set its lifecycle to the uppercased requested state; no edge
validation of any kind. -/
def transition_node (w : Dict WorkerInfo) (worker_id : String) (new_state : String) :
    Dict WorkerInfo :=
  w.map (transEntry worker_id new_state)

/-- `StateManager.get_idle_node()`: the first worker in insertion order
whose lifecycle is "IDLE". -/
def get_idle_node (w : Dict WorkerInfo) : Option String :=
  (w.find? fun p => p.2.lifecycle_state = "IDLE").map Prod.fst

/-- Effect of the staleness pass on a single dict entry. -/
def staleEntry (now : ℕ) : String × WorkerInfo → String × WorkerInfo
  | (k, v) =>
      if (now : ℤ) - (v.last_seen : ℤ) > 30 then (k, { v with status := "Offline" }) else (k, v)

/-- The staleness pass of `StateManager.get_all_workers()`: every worker
not seen for more than 30 seconds gets status "Offline"; nothing else
changes (in particular the lifecycle state is untouched). -/
def get_all_workers (w : Dict WorkerInfo) (now : ℕ) : Dict WorkerInfo :=
  w.map (staleEntry now)

/-! ## Worker digital twin (src/workers/worker.py) -/

/-- Step 4 (throttling) of `DigitalTwin.update_physics`, as a function of
the temperature reached after the thermal update of steps 1-3 of the same
call and of the current clock speed: above the throttle threshold 95 the
clock drops by 10 with floor 10, otherwise it recovers by 2 with ceiling
100. -/
def throttleStep (temp clock : ℚ) : ℚ :=
  if temp > 95 then max 10 (clock - 10) else min 100 (clock + 2)

/-! ## Telemetry signing (src/workers/worker.py) and verification

The signing side is `work_loop` lines 155-166.  HMAC-SHA-256
(`hmac.new(key, msg, sha256).hexdigest()`) and Python's float-to-string
conversion inside the f-string are external library functions; they enter
the embedding as parameters `mac`, `fmtNat` (decimal rendering of the
integer timestamp) and `fmtQ` (rendering of a float value). -/

/-- The four message fields the canonical string covers. -/
structure TelemetryMsg where
  worker_id : String
  timestamp : ℕ
  latency : ℚ
  temperature : ℚ
deriving DecidableEq, Repr

/-- A signed envelope, flattened: the source packet carries
`header = {worker_id, timestamp, signature}` and a body holding the same
worker_id plus latency/temperature (and further fields the signature does
not cover); the claim's message is the four signed fields, so the envelope
is embedded as those four fields plus the signature.  The signature type is
a parameter (the hex digest string in the source). -/
structure Envelope (σ : Type) where
  worker_id : String
  timestamp : ℕ
  latency : ℚ
  temperature : ℚ
  signature : σ
deriving DecidableEq, Repr

/-- The canonical string of `work_loop`:
`f"{WORKER_ID}:{timestamp}:{current_latency}:{twin.temp}"`. -/
def canonicalString (fmtNat : ℕ → String) (fmtQ : ℚ → String)
    (worker_id : String) (timestamp : ℕ) (latency temperature : ℚ) : String :=
  worker_id ++ ":" ++ fmtNat timestamp ++ ":" ++ fmtQ latency ++ ":" ++ fmtQ temperature

/-- The per-worker derived secret of `work_loop`:
`f"simulated_sk_{WORKER_ID}{key_suffix}"`, suffix `"_FAKE"` while the twin
is spoofing. -/
def secretKey (worker_id : String) (spoofing : Bool) : String :=
  "simulated_sk_" ++ worker_id ++ (if spoofing then "_FAKE" else "")

/-- The signing step of `work_loop` for an honest (non-spoofing) worker:
HMAC over the canonical string with the per-worker secret, packed into the
envelope next to the signed fields. -/
def signEnvelope {σ : Type} (mac : String → String → σ)
    (fmtNat : ℕ → String) (fmtQ : ℚ → String) (m : TelemetryMsg) : Envelope σ :=
  { worker_id := m.worker_id
    timestamp := m.timestamp
    latency := m.latency
    temperature := m.temperature
    signature :=
      mac (secretKey m.worker_id false)
        (canonicalString fmtNat fmtQ m.worker_id m.timestamp m.latency m.temperature) }

/-- Modelled from the spec: the verifier behind the `/telemetry/secure`
endpoint is not among the repository sources (only its producer in
src/workers/worker.py and its consumers are).  Per spec section 4.2 it
recomputes the HMAC over the received canonical string with the per-worker
derived secret and compares it with the received signature
(constant-time in the source; comparison is pure equality here): match
gives integrity "VERIFIED", mismatch gives "SPOOFED". -/
def verifyEnvelope {σ : Type} [DecidableEq σ] (mac : String → String → σ)
    (fmtNat : ℕ → String) (fmtQ : ℚ → String) (e : Envelope σ) : String :=
  if mac (secretKey e.worker_id false)
      (canonicalString fmtNat fmtQ e.worker_id e.timestamp e.latency e.temperature)
      = e.signature
  then "VERIFIED" else "SPOOFED"

/-- `e1` is `e0` with exactly one of the five envelope fields replaced by a
different value. -/
def mutatedOneField {σ : Type} (e0 e1 : Envelope σ) : Prop :=
  (e1.worker_id ≠ e0.worker_id ∧ e1.timestamp = e0.timestamp ∧
     e1.latency = e0.latency ∧ e1.temperature = e0.temperature ∧
     e1.signature = e0.signature) ∨
  (e1.worker_id = e0.worker_id ∧ e1.timestamp ≠ e0.timestamp ∧
     e1.latency = e0.latency ∧ e1.temperature = e0.temperature ∧
     e1.signature = e0.signature) ∨
  (e1.worker_id = e0.worker_id ∧ e1.timestamp = e0.timestamp ∧
     e1.latency ≠ e0.latency ∧ e1.temperature = e0.temperature ∧
     e1.signature = e0.signature) ∨
  (e1.worker_id = e0.worker_id ∧ e1.timestamp = e0.timestamp ∧
     e1.latency = e0.latency ∧ e1.temperature ≠ e0.temperature ∧
     e1.signature = e0.signature) ∨
  (e1.worker_id = e0.worker_id ∧ e1.timestamp = e0.timestamp ∧
     e1.latency = e0.latency ∧ e1.temperature = e0.temperature ∧
     e1.signature ≠ e0.signature)

/-! ## WatchdogAgent (src/backend/agents/implementations.py) -/

/-- One flattened row of the `worker_list` the Watchdog builds from the
telemetry snapshot (latency rounded to 3 digits, the other metrics to 1). -/
structure WatchdogRow where
  id : String
  lat : ℚ
  temp : ℚ
  fan : ℚ
  clock : ℚ
  load : ℚ
  integrity : String
deriving DecidableEq, Repr

/-- Build one `worker_list` row from a snapshot entry. -/
def mkRow (wid : String) (d : TelemetryData) : WatchdogRow :=
  { id := wid
    lat := pyRound d.latency 3
    temp := pyRound d.temperature 1
    fan := pyRound d.fan_speed 1
    clock := pyRound d.clock_speed 1
    load := pyRound d.gpu_util 1
    integrity := d.integrity }

/-- The Weighted Efficiency Index the Watchdog attaches to a row:
`round(clock_score*0.4 + temp_score*0.3 + latency_score*0.3, 2)` with
`temp_score = max(0, 1 - temp/100)`, `clock_score = clock/100`,
`latency_score = max(0, 1 - lat)`. -/
def efficiencyIndex (r : WatchdogRow) : ℚ :=
  pyRound ((r.clock / 100) * (4/10)
    + (max 0 (1 - r.temp / 100)) * (3/10)
    + (max 0 (1 - r.lat)) * (3/10)) 2

/-- An anomaly record as the Watchdog emits it: the spoof branch writes
only `node_id` and `reason`; the AI branch later attaches the node's
efficiency index when the node is found in the worker list. -/
structure Anomaly where
  node_id : String
  reason : String
  efficiency : Option ℚ
deriving DecidableEq, Repr

/-- The reason string of the spoof branch. -/
def spoofReason : String := "CRITICAL: Signature Spoofing Detected (PoC Violation)"

/-- Outcome of the external reasoning call `ask_io_intelligence_async`
inside the Watchdog: a parsed anomaly list, an unreachable-service
sentinel (the response text starts with an error marker), or a response
whose JSON fails to decode. -/
inductive AiOutcome where
  | ok : List Anomaly → AiOutcome
  | unreachable : AiOutcome
  | malformed : AiOutcome
deriving DecidableEq, Repr

/-- `WatchdogAgent._process` reduced to the anomaly list it returns (the
value it stores into `ctx.anomalies_detected` / its result dict):
1. flatten the snapshot into `worker_list`;
2. if any row is SPOOFED, return one spoof anomaly per spoofed row and
   stop (the security short-circuit);
3. with an empty worker list return nothing;
4. otherwise the anomaly list comes from the external reasoning call:
   its parsed list enriched with each named node's efficiency index, and
   the empty list when that call is unreachable or returns malformed
   JSON (the source returns a "System Healthy" message in both cases). -/
def watchdogProcess (snapshot : Dict TelemetryData) (ai : AiOutcome) : List Anomaly :=
  let rows := snapshot.map fun p => mkRow p.1 p.2
  let spoofed := rows.filter fun r => r.integrity = "SPOOFED"
  if spoofed ≠ [] then
    spoofed.map fun r => { node_id := r.id, reason := spoofReason, efficiency := none }
  else if rows = [] then []
  else
    match ai with
    | .ok l =>
        l.map fun a =>
          match rows.find? fun r => r.id = a.node_id with
          | some r => { a with efficiency := some (efficiencyIndex r) }
          | none => a
    | .unreachable => []
    | .malformed => []

/-! ## AccountantAgent (src/backend/agents/implementations.py) -/

/-- The running total of `AccountantAgent._process`: a reward of 0.01 for
every worker whose status field reads "Active" after the staleness pass of
`get_all_workers`, then for every snapshot entry a -100 deduction when
SPOOFED, a -5 deduction when latency exceeds 0.5 and a -10 deduction when
temperature exceeds 95, accumulated in source order. -/
def accountantTotal (workers : Dict WorkerInfo) (now : ℕ)
    (snapshot : Dict TelemetryData) : ℚ :=
  let active := get_all_workers workers now
  let rewardTotal : ℚ :=
    active.foldl (fun acc p => if p.2.status = "Active" then acc + 1/100 else acc) 0
  snapshot.foldl
    (fun acc p =>
      let a1 := if p.2.integrity = "SPOOFED" then acc + (-100) else acc
      let a2 := if p.2.latency > 1/2 then a1 + (-5) else a1
      if p.2.temperature > 95 then a2 + (-10) else a2)
    rewardTotal

/-- The discrete slashing penalties a single snapshot entry contributes. -/
def penaltyOf (t : TelemetryData) : ℚ :=
  (if t.integrity = "SPOOFED" then -100 else 0)
    + (if t.latency > 1/2 then -5 else 0)
    + (if t.temperature > 95 then -10 else 0)

/-- The scan total as the claim words it (refinement-comparison
definition, built from the claim, not from the source): a continuous
throttling waste `hourly_rate * (1 - clock_speed/100)` for every snapshot
node whose clock is below 100, the discrete penalties, and a 0.01
proof-of-uptime reward per currently healthy ACTIVE node (read as:
lifecycle ACTIVE and status still "Active" after the staleness pass). -/
def claimedScanTotal (hourlyRate : ℚ) (workers : Dict WorkerInfo) (now : ℕ)
    (snapshot : Dict TelemetryData) : ℚ :=
  let waste : ℚ :=
    (snapshot.map fun p =>
      if p.2.clock_speed < 100 then hourlyRate * (1 - p.2.clock_speed / 100) else 0).sum
  let penalties : ℚ := (snapshot.map fun p => penaltyOf p.2).sum
  let rewards : ℚ :=
    ((get_all_workers workers now).map fun p =>
      if p.2.lifecycle_state = "ACTIVE" ∧ p.2.status = "Active" then (1/100 : ℚ) else 0).sum
  waste + penalties + rewards

/-! ## EnforcerAgent (src/backend/agents/implementations.py) -/

/-- The decision object parsed from the SRE-manager reasoning response:
both keys are read with `.get`, so either may be absent. -/
structure Decision where
  action : Option String
  node_id : Option String
deriving DecidableEq, Repr

/-- The observable event of one Enforcer run (the `exec_log` strings of
the source, as constructors). -/
inductive EnforcerEvent where
  | healthy : EnforcerEvent
  | repaired : String → EnforcerEvent
  | restarted : String → EnforcerEvent
  | failoverDone : String → String → EnforcerEvent
  | failoverBlocked : String → EnforcerEvent
  | decisionOnly : String → String → EnforcerEvent
deriving DecidableEq, Repr

/-- Action execution inside `EnforcerAgent._process`: REPAIR and RESTART
dispatch the external `/chaos/repair` actuation call (no registry
mutation); FAILOVER first cordons the target, then promotes the first
idle node when one exists and otherwise emits the FAILOVER BLOCKED event;
any other action only records the decision. -/
def enforcerExecute (w : Dict WorkerInfo) (action target : String) :
    Dict WorkerInfo × EnforcerEvent :=
  if action = "REPAIR" then (w, .repaired target)
  else if action = "RESTART" then (w, .restarted target)
  else if action = "FAILOVER" then
    let w1 := transition_node w target "CORDONED"
    match get_idle_node w1 with
    | some standby => (transition_node w1 standby "ACTIVE", .failoverDone target standby)
    | none => (w1, .failoverBlocked target)
  else (w, .decisionOnly action target)

/-- `EnforcerAgent._process` reduced to its registry effect and event:
with no detected anomalies it does nothing; otherwise the action is the
uppercased decision action (default "IGNORE") and the target is the
decision's node, defaulting to the first anomaly's node. -/
def enforcerProcess (w : Dict WorkerInfo) (d : Decision) (anomalies : List Anomaly) :
    Dict WorkerInfo × EnforcerEvent :=
  match anomalies with
  | [] => (w, .healthy)
  | a :: _ => enforcerExecute w (pyUpper (d.action.getD "IGNORE")) (d.node_id.getD a.node_id)

/-- The standby the Enforcer promotes in a given run, when there is one:
the first idle node of the registry after the target has been cordoned,
and only for a FAILOVER action. -/
def promotedStandby (w : Dict WorkerInfo) (action target : String) : Option String :=
  if action = "FAILOVER" then get_idle_node (transition_node w target "CORDONED") else none

/-! ## Concrete witness inputs -/

/-- 61 telemetry samples with distinct latencies, for exercising the
bounded-history eviction. -/
def witSamples : List TelemetryData :=
  (List.range 61).map fun i =>
    { worker_id := "w1"
      latency := (i : ℚ)
      temperature := 0
      gpu_util := 0
      fan_speed := 0
      clock_speed := 100
      integrity := "VERIFIED" }

/-- A worker record that is active and healthy, as telemetry ingestion
would have left it. -/
def witInfoActive : WorkerInfo :=
  { last_seen := 0
    data := simulatedData "w1"
    status := "Active"
    lifecycle_state := "ACTIVE"
    integrity := "VERIFIED" }

/-- A standby worker record, as provisioning leaves it. -/
def witInfoIdle : WorkerInfo :=
  { last_seen := 0
    data := simulatedData "w2"
    status := "Active"
    lifecycle_state := "IDLE"
    integrity := "VERIFIED" }

/-- A tagging MAC for witnesses: keeps key and message as a pair, so it is
trivially injective. -/
def pairMac (k s : String) : String × String := (k, s)

/-- Unary rendering of a natural number, injective by length. -/
def unaryNat (n : ℕ) : String := String.mk (List.replicate n 'a')

/-- Injective rendering of a rational through its encoding. -/
def unaryRat (q : ℚ) : String := unaryNat (Encodable.encode q)

/-- A concrete telemetry message to sign. -/
def witMsg : TelemetryMsg :=
  { worker_id := "w1", timestamp := 5, latency := 1/2, temperature := 45 }

/-- A telemetry sample that is throttled (clock 50) but otherwise healthy:
verified signature, low latency, moderate temperature. -/
def witClock50 : TelemetryData :=
  { worker_id := "w1"
    latency := 1/10
    temperature := 50
    gpu_util := 50
    fan_speed := 0
    clock_speed := 50
    integrity := "VERIFIED" }

/-- A verified sample with very low efficiency: clock at the floor,
temperature 90, latency a full second. -/
def witLowEff : TelemetryData :=
  { worker_id := "w1"
    latency := 1
    temperature := 90
    gpu_util := 50
    fan_speed := 100
    clock_speed := 10
    integrity := "VERIFIED" }

/-- A sample whose signature verification failed. -/
def witSpoofed : TelemetryData :=
  { worker_id := "w1"
    latency := 1/10
    temperature := 50
    gpu_util := 50
    fan_speed := 0
    clock_speed := 100
    integrity := "SPOOFED" }

/-- A concrete detected anomaly naming node w1. -/
def witAnomaly : Anomaly := { node_id := "w1", reason := "degraded", efficiency := none }

/-! ## Theorems -/

/-- C8: in every physics tick, when the temperature after the thermal
update exceeds the throttle threshold 95 the clock speed drops by the
fixed step 10 clamped to the floor 10 — in particular it strictly
decreases whenever it sits above the floor — and otherwise it recovers by
the smaller fixed step 2 clamped to the ceiling 100. -/
theorem throttle_step_contract (temp clock : ℚ) :
    (temp > 95 →
      throttleStep temp clock = max 10 (clock - 10) ∧
      (10 < clock → throttleStep temp clock < clock)) ∧
    (¬ temp > 95 → throttleStep temp clock = min 100 (clock + 2)) := by
  constructor
  · intro h
    refine ⟨by simp [throttleStep, h], fun hc => ?_⟩
    have hlt : max 10 (clock - 10) < clock := max_lt hc (by linarith)
    simpa [throttleStep, h] using hlt
  · intro h
    simp [throttleStep, h]

/-- Witness for C8 at temperature 96, clock 50. -/
theorem throttle_step_contract_witness :
    (96 : ℚ) > 95 ∧ (10 : ℚ) < 50 ∧ throttleStep 96 50 < 50 :=
  ⟨by norm_num, by norm_num, ((throttle_step_contract 96 50).1 (by norm_num)).2 (by norm_num)⟩

/-- Running a transaction list through `update_ledger` from an arbitrary
starting ledger: the three counters advance by the signed sum, the summed
negative magnitudes and the summed non-negative amounts, and the log stays
clipped at 20 entries. -/
theorem update_ledger_foldl (txns : List (ℚ × String)) :
    ∀ l : Ledger, ∀ ts : String, l.history.length ≤ 20 →
      (txns.foldl (fun acc t => update_ledger acc t.1 t.2 ts) l).balance
          = l.balance + (txns.map Prod.fst).sum ∧
      (txns.foldl (fun acc t => update_ledger acc t.1 t.2 ts) l).slashed
          = l.slashed + (txns.map fun t => if t.1 < 0 then |t.1| else 0).sum ∧
      (txns.foldl (fun acc t => update_ledger acc t.1 t.2 ts) l).rewards
          = l.rewards + (txns.map fun t => if 0 < t.1 then t.1 else 0).sum ∧
      (txns.foldl (fun acc t => update_ledger acc t.1 t.2 ts) l).history.length
          = min 20 (l.history.length + txns.length) := by
  induction txns with
  | nil =>
      intro l ts hlen
      simp
      omega
  | cons t txns ih =>
      intro l ts hlen
      have hstep : (update_ledger l t.1 t.2 ts).history.length
          = min 20 (l.history.length + 1) := by
        simp only [update_ledger]
        split <;> simp_all <;> omega
      have hlen1 : (update_ledger l t.1 t.2 ts).history.length ≤ 20 := by omega
      obtain ⟨hb, hs, hr, hh⟩ := ih (update_ledger l t.1 t.2 ts) ts hlen1
      refine ⟨?_, ?_, ?_, ?_⟩
      · rw [List.foldl_cons, hb]
        simp [update_ledger]
        ring
      · rw [List.foldl_cons, hs]
        simp only [update_ledger, List.map_cons, List.sum_cons]
        split <;> (try simp) <;> ring
      · rw [List.foldl_cons, hr]
        simp only [update_ledger, List.map_cons, List.sum_cons]
        rcases lt_trichotomy t.1 0 with hneg | hzero | hpos
        · rw [if_pos hneg, if_neg (by linarith)]
          ring
        · rw [if_neg (by simp [hzero]), if_neg (by simp [hzero]), hzero]
          ring
        · rw [if_neg (by linarith), if_pos hpos]
          ring
      · rw [List.foldl_cons, hh, hstep]
        simp
        omega

/-- C5: for every sequence of `update_ledger` calls from the initial
ledger, the final balance is the initial 5000 plus the signed sum of the
amounts, the slashed total is the summed magnitudes of the negative
amounts and the rewards total is the summed positive amounts; the
transaction log meanwhile is truncated to its capacity of 20 entries
without affecting those three running counters. -/
theorem ledger_conservation (txns : List (ℚ × String)) (ts : String) :
    (txns.foldl (fun acc t => update_ledger acc t.1 t.2 ts) initialLedger).balance
        = 5000 + (txns.map Prod.fst).sum ∧
    (txns.foldl (fun acc t => update_ledger acc t.1 t.2 ts) initialLedger).slashed
        = (txns.map fun t => if t.1 < 0 then |t.1| else 0).sum ∧
    (txns.foldl (fun acc t => update_ledger acc t.1 t.2 ts) initialLedger).rewards
        = (txns.map fun t => if 0 < t.1 then t.1 else 0).sum ∧
    (txns.foldl (fun acc t => update_ledger acc t.1 t.2 ts) initialLedger).history.length
        = min 20 txns.length := by
  obtain ⟨hb, hs, hr, hh⟩ := update_ledger_foldl txns initialLedger ts (by simp [initialLedger])
  refine ⟨?_, ?_, ?_, ?_⟩
  · simpa [initialLedger] using hb
  · simpa [initialLedger] using hs
  · simpa [initialLedger] using hr
  · simpa [initialLedger] using hh

/-- Looking up a key right after writing it returns the written value. -/
theorem dictGet_dictInsert {α : Type} (k : String) (v : α) (d : Dict α) :
    dictGet k (dictInsert k v d) = some v := by
  induction d with
  | nil => simp [dictInsert, dictGet]
  | cons p rest ih =>
      by_cases h : p.1 = k
      · simp [dictInsert, dictGet, h]
      · simp [dictInsert, dictGet, h, ih]

/-- The bounded history push keeps exactly the last 60 elements: folding
it over an ingestion sequence from any buffer already within capacity
yields the tail of the concatenation past the capacity overflow. -/
theorem foldl_pushHistory {α : Type} (xs : List α) :
    ∀ a : List α, a.length ≤ 60 →
      List.foldl pushHistory a xs = (a ++ xs).drop (a.length + xs.length - 60) := by
  induction xs with
  | nil =>
      intro a ha
      rw [List.foldl_nil, List.append_nil, List.length_nil, Nat.add_zero,
        Nat.sub_eq_zero_of_le ha, List.drop_zero]
  | cons x xs ih =>
      intro a ha
      rw [List.foldl_cons]
      by_cases hlen : a.length < 60
      · have hpush : pushHistory a x = a ++ [x] := by
          simp only [pushHistory]
          rw [if_neg (by simp; omega)]
        rw [hpush, ih (a ++ [x]) (by simp; omega)]
        have hl : (a ++ [x]) ++ xs = a ++ x :: xs := by simp
        rw [hl]
        have hidx : (a ++ [x]).length + xs.length - 60 = a.length + (x :: xs).length - 60 := by
          simp
          omega
        rw [hidx]
      · have h60 : a.length = 60 := by omega
        obtain ⟨y, a1, rfl⟩ : ∃ y a1, a = y :: a1 := by
          cases a with
          | nil => simp at h60
          | cons y a1 => exact ⟨y, a1, rfl⟩
        have h59 : a1.length = 59 := by
          simp at h60
          omega
        have hpush : pushHistory (y :: a1) x = a1 ++ [x] := by
          simp only [pushHistory]
          rw [if_pos (by simp; omega), List.cons_append, List.tail_cons]
        rw [hpush, ih (a1 ++ [x]) (by simp [h59])]
        have hl : (a1 ++ [x]) ++ xs = a1 ++ x :: xs := by simp
        rw [hl]
        have hi1 : (a1 ++ [x]).length + xs.length - 60 = xs.length := by
          simp [h59]
        rw [hi1]
        have hi2 : (y :: a1).length + (x :: xs).length - 60 = xs.length + 1 := by
          simp [h59]
        rw [hi2]
        rw [List.cons_append, List.drop_succ_cons]

/-- Through a run of telemetry ingestions for one node, the node's stored
history is exactly the fold of the bounded push over the samples. -/
theorem history_of_ingest (wid : String) (now : ℕ) (samples : List TelemetryData) :
    ∀ s : StateM, samples ≠ [] →
      dictGet wid
          ((samples.foldl (fun st d => update_worker_status st wid d now) s).worker_history)
        = some (List.foldl pushHistory ((dictGet wid s.worker_history).getD []) samples) := by
  induction samples with
  | nil => intro s h; exact absurd rfl h
  | cons d samples ih =>
      intro s _
      rw [List.foldl_cons, List.foldl_cons]
      by_cases hnil : samples = []
      · subst hnil
        simp only [List.foldl_nil, update_worker_status]
        rw [dictGet_dictInsert]
      · rw [ih _ hnil]
        congr 1
        simp only [update_worker_status]
        rw [dictGet_dictInsert]
        simp

/-- C9: after ingesting more than 60 telemetry samples for one node into
a fresh registry, the node's stored history has length exactly 60 and
equals the most recent 60 samples in ingestion order (oldest evicted
first). -/
theorem history_fifo_capacity (wid : String) (now : ℕ) (samples : List TelemetryData)
    (hlen : 60 < samples.length) :
    dictGet wid
        ((samples.foldl (fun st d => update_worker_status st wid d now) emptyState).worker_history)
      = some (samples.drop (samples.length - 60)) ∧
    (samples.drop (samples.length - 60)).length = 60 := by
  have hne : samples ≠ [] := by
    intro h
    rw [h] at hlen
    simp at hlen
  constructor
  · rw [history_of_ingest wid now samples emptyState hne]
    simp only [emptyState, dictGet, Option.getD_none]
    rw [foldl_pushHistory samples [] (by simp)]
    simp
  · rw [List.length_drop]
    omega

/-- Witness for C9: 61 distinct samples, history keeps the last 60. -/
theorem history_fifo_capacity_witness :
    60 < (witSamples.length) ∧
    dictGet "w1"
        ((witSamples.foldl (fun st d => update_worker_status st "w1" d 0) emptyState).worker_history)
      = some (witSamples.drop (witSamples.length - 60)) :=
  ⟨by decide, (history_fifo_capacity "w1" 0 witSamples (by decide)).1⟩

/-- `transition_node` rewrites the lifecycle of the addressed worker to
the uppercased requested state. -/
theorem dictGet_transition_node_self (st wid : String) :
    ∀ (w : Dict WorkerInfo) (i : WorkerInfo), dictGet wid w = some i →
      dictGet wid (transition_node w wid st) = some { i with lifecycle_state := pyUpper st } := by
  intro w
  induction w with
  | nil => intro i h; simp [dictGet] at h
  | cons p rest ih =>
      obtain ⟨k, val⟩ := p
      intro i h
      by_cases hk : k = wid
      · simp only [dictGet, if_pos hk] at h
        obtain rfl : val = i := by simpa using h
        simp only [transition_node, List.map_cons, transEntry]
        rw [if_pos hk]
        simp only [dictGet]
        rw [if_pos hk]
      · simp only [dictGet, if_neg hk] at h
        simp only [transition_node, List.map_cons, transEntry]
        rw [if_neg hk]
        simp only [dictGet]
        rw [if_neg hk]
        simpa [transition_node] using ih i h

/-- `transition_node` leaves every other worker entry untouched. -/
theorem dictGet_transition_node_ne (st wid v : String) (hne : v ≠ wid) :
    ∀ w : Dict WorkerInfo, dictGet v (transition_node w wid st) = dictGet v w := by
  intro w
  induction w with
  | nil => simp [transition_node]
  | cons p rest ih =>
      obtain ⟨k, val⟩ := p
      by_cases hk : k = wid
      · have hkv : ¬ k = v := by
          intro h
          apply hne
          rw [← h]
          exact hk
        simp only [transition_node, List.map_cons, transEntry]
        rw [if_pos hk]
        simp only [dictGet]
        rw [if_neg hkv, if_neg hkv]
        simpa [transition_node] using ih
      · simp only [transition_node, List.map_cons, transEntry]
        rw [if_neg hk]
        simp only [dictGet]
        by_cases hkv : k = v
        · rw [if_pos hkv, if_pos hkv]
        · rw [if_neg hkv, if_neg hkv]
          simpa [transition_node] using ih

/-- The staleness pass of `get_all_workers` never changes any worker's
lifecycle state. -/
theorem get_all_workers_lifecycle (now : ℕ) (v : String) :
    ∀ w : Dict WorkerInfo,
      (dictGet v (get_all_workers w now)).map WorkerInfo.lifecycle_state
        = (dictGet v w).map WorkerInfo.lifecycle_state := by
  intro w
  induction w with
  | nil => simp [get_all_workers]
  | cons p rest ih =>
      obtain ⟨k, val⟩ := p
      simp only [get_all_workers, List.map_cons, staleEntry]
      split
      · simp only [dictGet]
        by_cases hk : k = v
        · rw [if_pos hk, if_pos hk]
          rfl
        · rw [if_neg hk, if_neg hk]
          simpa [get_all_workers] using ih
      · simp only [dictGet]
        by_cases hk : k = v
        · rw [if_pos hk, if_pos hk]
        · rw [if_neg hk, if_neg hk]
          simpa [get_all_workers] using ih

/-- C3 counterexample: a node created by its first telemetry ingestion is
in lifecycle state ACTIVE, not IDLE, contradicting the claimed initial
state (and, with it, the claimed edge discipline: any later telemetry
sample also forces ACTIVE regardless of the previous state). -/
theorem lifecycle_creation_counterexample :
    ((dictGet "w1" (update_worker_status emptyState "w1" (simulatedData "w1") 0).workers).map
        WorkerInfo.lifecycle_state) = some "ACTIVE" ∧
    ((dictGet "w1" (update_worker_status emptyState "w1" (simulatedData "w1") 0).workers).map
        WorkerInfo.lifecycle_state) ≠ some "IDLE" := by
  constructor
  · rfl
  · intro h
    simp [update_worker_status, emptyState, dictGet_dictInsert] at h

/-- C3 amended: a provisioned node starts IDLE, but a node written by
telemetry ingestion is always set to lifecycle ACTIVE (so creation by
first telemetry starts ACTIVE and ingestion may cross undefined edges
such as CORDONED to ACTIVE); `transition_node` installs exactly the
uppercased requested state with no edge validation; and the over-30s
staleness pass rewrites only the status field, never the lifecycle state
(no state ever moves to lifecycle OFFLINE by staleness). -/
theorem lifecycle_actual_behavior (s : StateM) (w : Dict WorkerInfo)
    (wid st : String) (d : TelemetryData) (now : ℕ) (i : WorkerInfo)
    (hw : dictGet wid w = some i) :
    ((dictGet wid (update_worker_status s wid d now).workers).map
        WorkerInfo.lifecycle_state = some "ACTIVE") ∧
    ((dictGet wid (add_simulated_worker s wid now).workers).map
        WorkerInfo.lifecycle_state = some "IDLE") ∧
    dictGet wid (transition_node w wid st) = some { i with lifecycle_state := pyUpper st } ∧
    (∀ v : String, (dictGet v (get_all_workers w now)).map WorkerInfo.lifecycle_state
        = (dictGet v w).map WorkerInfo.lifecycle_state) := by
  refine ⟨?_, ?_, ?_, ?_⟩
  · simp [update_worker_status, dictGet_dictInsert]
  · simp [add_simulated_worker, dictGet_dictInsert]
  · exact dictGet_transition_node_self st wid w i hw
  · intro v
    exact get_all_workers_lifecycle now v w

/-- Witness for C3 amended, on a one-node registry. -/
theorem lifecycle_actual_behavior_witness :
    dictGet "w1" [("w1", witInfoActive)] = some witInfoActive ∧
    (((dictGet "w1"
        (update_worker_status emptyState "w1" (simulatedData "w1") 0).workers).map
        WorkerInfo.lifecycle_state = some "ACTIVE") ∧
    ((dictGet "w1" (add_simulated_worker emptyState "w1" 0).workers).map
        WorkerInfo.lifecycle_state = some "IDLE") ∧
    dictGet "w1" (transition_node [("w1", witInfoActive)] "w1" "cordoned")
        = some { witInfoActive with lifecycle_state := pyUpper "cordoned" } ∧
    (∀ v : String,
      (dictGet v (get_all_workers [("w1", witInfoActive)] 0)).map WorkerInfo.lifecycle_state
        = (dictGet v [("w1", witInfoActive)]).map WorkerInfo.lifecycle_state)) :=
  ⟨rfl, lifecycle_actual_behavior emptyState [("w1", witInfoActive)] "w1" "cordoned"
    (simulatedData "w1") 0 witInfoActive rfl⟩

/-- Cordoning a node can only remove idle candidates, never create them:
if the registry had no IDLE node, it still has none after the cordon. -/
theorem get_idle_node_cordon_none (w : Dict WorkerInfo) (target : String)
    (h : get_idle_node w = none) :
    get_idle_node (transition_node w target "CORDONED") = none := by
  simp only [get_idle_node, Option.map_eq_none', List.find?_eq_none] at h ⊢
  intro x hx
  simp only [transition_node, List.mem_map] at hx
  obtain ⟨⟨k, v⟩, ha, rfl⟩ := hx
  by_cases hk : k = target
  · simp [transEntry, hk]
    decide
  · simp only [transEntry]
    simp [hk]
    simpa using h _ ha

/-- C2 counterexample: on a registry holding only the ACTIVE node w1, a
FAILOVER decision on w1 with no IDLE node available leaves w1 CORDONED —
not ACTIVE as the claim states — while the FAILOVER BLOCKED event is
emitted. -/
theorem failover_blocked_counterexample :
    (enforcerProcess [("w1", witInfoActive)]
        { action := some "FAILOVER", node_id := some "w1" } [witAnomaly]).2
      = EnforcerEvent.failoverBlocked "w1" ∧
    ((dictGet "w1" (enforcerProcess [("w1", witInfoActive)]
        { action := some "FAILOVER", node_id := some "w1" } [witAnomaly]).1).map
        WorkerInfo.lifecycle_state) = some "CORDONED" ∧
    ((dictGet "w1" (enforcerProcess [("w1", witInfoActive)]
        { action := some "FAILOVER", node_id := some "w1" } [witAnomaly]).1).map
        WorkerInfo.lifecycle_state) ≠ some "ACTIVE" := by
  refine ⟨rfl, rfl, ?_⟩
  intro hcontra
  simp [enforcerProcess, enforcerExecute, transition_node, transEntry, dictGet,
    get_idle_node, witInfoActive, pyUpper] at hcontra

/-- C2 amended: when the Enforcer executes a FAILOVER decision and no
IDLE node exists, the degraded node is nevertheless cordoned first
(ACTIVE to CORDONED), the FAILOVER BLOCKED event is then emitted, no
promotion happens, and every other node is untouched. -/
theorem failover_blocked_behavior (w : Dict WorkerInfo) (d : Decision) (a : Anomaly)
    (rest : List Anomaly) (i : WorkerInfo)
    (haction : pyUpper (d.action.getD "IGNORE") = "FAILOVER")
    (htarget : dictGet (d.node_id.getD a.node_id) w = some i)
    (hidle : get_idle_node w = none) :
    (enforcerProcess w d (a :: rest)).2
        = EnforcerEvent.failoverBlocked (d.node_id.getD a.node_id) ∧
    dictGet (d.node_id.getD a.node_id) (enforcerProcess w d (a :: rest)).1
        = some { i with lifecycle_state := "CORDONED" } ∧
    (∀ v : String, v ≠ d.node_id.getD a.node_id →
      dictGet v (enforcerProcess w d (a :: rest)).1 = dictGet v w) := by
  have hnone := get_idle_node_cordon_none w (d.node_id.getD a.node_id) hidle
  have hexec : enforcerProcess w d (a :: rest)
      = (transition_node w (d.node_id.getD a.node_id) "CORDONED",
         EnforcerEvent.failoverBlocked (d.node_id.getD a.node_id)) := by
    simp only [enforcerProcess, enforcerExecute, haction]
    rw [if_pos trivial, hnone]
    rw [if_neg (by decide), if_neg (by decide)]
  rw [hexec]
  refine ⟨rfl, ?_, ?_⟩
  · have hself := dictGet_transition_node_self "CORDONED" (d.node_id.getD a.node_id) w i htarget
    have hup : pyUpper "CORDONED" = "CORDONED" := by decide
    rw [hup] at hself
    exact hself
  · intro v hv
    exact dictGet_transition_node_ne "CORDONED" (d.node_id.getD a.node_id) v hv w

/-- Witness for C2 amended, on a one-node registry with no standby. -/
theorem failover_blocked_behavior_witness :
    pyUpper ((Decision.mk (some "FAILOVER") none).action.getD "IGNORE") = "FAILOVER" ∧
    dictGet ((Decision.mk (some "FAILOVER") none).node_id.getD witAnomaly.node_id)
        [("w1", witInfoActive)] = some witInfoActive ∧
    get_idle_node [("w1", witInfoActive)] = none ∧
    (enforcerProcess [("w1", witInfoActive)] (Decision.mk (some "FAILOVER") none)
        [witAnomaly]).2
      = EnforcerEvent.failoverBlocked
          ((Decision.mk (some "FAILOVER") none).node_id.getD witAnomaly.node_id) :=
  ⟨by decide, rfl, rfl,
    (failover_blocked_behavior [("w1", witInfoActive)] (Decision.mk (some "FAILOVER") none)
      witAnomaly [] witInfoActive (by decide) rfl rfl).1⟩

/-- C10 counterexample: a FAILOVER on target w1 with the standby w2
available also flips w2 from IDLE to ACTIVE — a lifecycle change of a
node other than the single targeted node, even though the anomaly list
names w1 and w3 only. -/
theorem single_target_counterexample :
    ((dictGet "w2" (enforcerProcess [("w1", witInfoActive), ("w2", witInfoIdle)]
        { action := some "FAILOVER", node_id := some "w1" }
        [witAnomaly, { node_id := "w3", reason := "also degraded", efficiency := none }]).1).map
        WorkerInfo.lifecycle_state) = some "ACTIVE" ∧
    ((dictGet "w2" [("w1", witInfoActive), ("w2", witInfoIdle)]).map
        WorkerInfo.lifecycle_state) = some "IDLE" ∧
    ("w2" : String) ≠ "w1" :=
  ⟨rfl, rfl, by decide⟩

/-- C10 amended: per scan the Enforcer executes exactly one decision,
whose target defaults to the first detected anomaly's node when the
decision names none; every node other than that single target — and,
for a FAILOVER with a standby available, the one promoted idle node — has
its registry entry unchanged. -/
theorem enforcer_single_target (w : Dict WorkerInfo) (d : Decision) (a : Anomaly)
    (rest : List Anomaly) :
    (d.node_id = none →
      enforcerProcess w d (a :: rest)
        = enforcerExecute w (pyUpper (d.action.getD "IGNORE")) a.node_id) ∧
    (∀ v : String, v ≠ d.node_id.getD a.node_id →
      promotedStandby w (pyUpper (d.action.getD "IGNORE")) (d.node_id.getD a.node_id)
          ≠ some v →
      dictGet v (enforcerProcess w d (a :: rest)).1 = dictGet v w) := by
  constructor
  · intro hnone
    simp [enforcerProcess, hnone]
  · intro v hv hps
    simp only [enforcerProcess]
    by_cases h1 : pyUpper (d.action.getD "IGNORE") = "REPAIR"
    · simp only [enforcerExecute, if_pos h1]
    · by_cases h2 : pyUpper (d.action.getD "IGNORE") = "RESTART"
      · simp only [enforcerExecute, if_neg h1, if_pos h2]
      · by_cases h3 : pyUpper (d.action.getD "IGNORE") = "FAILOVER"
        · simp only [enforcerExecute, if_neg h1, if_neg h2, if_pos h3]
          simp only [promotedStandby, if_pos h3] at hps
          cases hgi : get_idle_node
              (transition_node w (d.node_id.getD a.node_id) "CORDONED") with
          | none =>
              show dictGet v (transition_node w (d.node_id.getD a.node_id) "CORDONED")
                  = dictGet v w
              exact dictGet_transition_node_ne "CORDONED" (d.node_id.getD a.node_id) v hv w
          | some standby =>
              have hvs : v ≠ standby := by
                intro h
                exact hps (by rw [h]; exact hgi)
              show dictGet v
                  (transition_node
                    (transition_node w (d.node_id.getD a.node_id) "CORDONED")
                    standby "ACTIVE") = dictGet v w
              rw [dictGet_transition_node_ne "ACTIVE" standby v hvs]
              exact dictGet_transition_node_ne "CORDONED" (d.node_id.getD a.node_id) v hv w
        · simp only [enforcerExecute, if_neg h1, if_neg h2, if_neg h3]

/-- Witness for C10 amended: a REPAIR decision with no named node targets
the first anomaly's node w1 and leaves the unrelated node w3 untouched. -/
theorem enforcer_single_target_witness :
    (Decision.mk (some "REPAIR") none).node_id = none ∧
    ("w3" : String) ≠ ((Decision.mk (some "REPAIR") none).node_id.getD witAnomaly.node_id) ∧
    promotedStandby [("w1", witInfoActive), ("w2", witInfoIdle)]
        (pyUpper ((Decision.mk (some "REPAIR") none).action.getD "IGNORE"))
        ((Decision.mk (some "REPAIR") none).node_id.getD witAnomaly.node_id) ≠ some "w3" ∧
    dictGet "w3" (enforcerProcess [("w1", witInfoActive), ("w2", witInfoIdle)]
        (Decision.mk (some "REPAIR") none) [witAnomaly]).1
      = dictGet "w3" [("w1", witInfoActive), ("w2", witInfoIdle)] :=
  ⟨rfl, by decide, by decide,
    (enforcer_single_target [("w1", witInfoActive), ("w2", witInfoIdle)]
      (Decision.mk (some "REPAIR") none) witAnomaly []).2 "w3" (by decide) (by decide)⟩

/-- The Accountant's reward loop counts 0.01 per worker whose status
reads "Active". -/
theorem accountant_reward_fold (ws : Dict WorkerInfo) :
    ∀ init : ℚ,
      ws.foldl (fun acc p => if p.2.status = "Active" then acc + 1/100 else acc) init
        = init + ((ws.countP fun p => p.2.status == "Active" : ℕ) : ℚ) * (1/100) := by
  induction ws with
  | nil => intro init; simp
  | cons p rest ih =>
      intro init
      rw [List.foldl_cons]
      by_cases h : p.2.status = "Active"
      · rw [if_pos h, ih]
        have hb : (p.2.status == "Active") = true := beq_iff_eq.mpr h
        rw [List.countP_cons, hb, if_pos rfl]
        push_cast
        ring
      · rw [if_neg h, ih]
        have hb : (p.2.status == "Active") = false := by
          simpa using h
        rw [List.countP_cons, hb]
        simp

/-- The Accountant's slashing loop adds exactly the per-entry penalties. -/
theorem accountant_penalty_fold (snap : Dict TelemetryData) :
    ∀ init : ℚ,
      snap.foldl
        (fun acc p =>
          let a1 := if p.2.integrity = "SPOOFED" then acc + (-100) else acc
          let a2 := if p.2.latency > 1/2 then a1 + (-5) else a1
          if p.2.temperature > 95 then a2 + (-10) else a2) init
        = init + (snap.map fun p => penaltyOf p.2).sum := by
  induction snap with
  | nil => intro init; simp
  | cons p rest ih =>
      intro init
      rw [List.foldl_cons, ih]
      simp only [List.map_cons, List.sum_cons, penaltyOf]
      split_ifs <;> ring

/-- C6 counterexample: one verified, cool, low-latency node throttled to
clock 50: the claim's model (hourly rate 1) posts the throttling waste
0.5 plus the 0.01 uptime reward, but the code posts only the 0.01 reward
— no throttling-waste term exists in the Accountant. -/
theorem accountant_waste_counterexample :
    accountantTotal [("w1", witInfoActive)] 0 [("w1", witClock50)] = 1/100 ∧
    claimedScanTotal 1 [("w1", witInfoActive)] 0 [("w1", witClock50)] = 51/100 ∧
    accountantTotal [("w1", witInfoActive)] 0 [("w1", witClock50)]
      ≠ claimedScanTotal 1 [("w1", witInfoActive)] 0 [("w1", witClock50)] := by
  have hnv : ("VERIFIED" : String) ≠ "SPOOFED" := by decide
  have h1 : accountantTotal [("w1", witInfoActive)] 0 [("w1", witClock50)] = 1/100 := by
    norm_num [accountantTotal, get_all_workers, staleEntry, witInfoActive, witClock50, hnv]
  have h2 : claimedScanTotal 1 [("w1", witInfoActive)] 0 [("w1", witClock50)] = 51/100 := by
    norm_num [claimedScanTotal, get_all_workers, staleEntry, witInfoActive, witClock50,
      penaltyOf, hnv]
  refine ⟨h1, h2, ?_⟩
  rw [h1, h2]
  norm_num

/-- C6 amended: the total the Accountant posts per scan is 0.01 per
worker whose status is still "Active" after the staleness pass, plus the
discrete penalties (-100 per spoofed signature, -5 per latency above
0.5s, -10 per temperature above 95) over the snapshot; no continuous
throttling-waste term is included, and `update_ledger` adds exactly this
total to the balance. -/
theorem accountant_scan_total (workers : Dict WorkerInfo) (now : ℕ)
    (snapshot : Dict TelemetryData) (l : Ledger) (reason ts : String) :
    accountantTotal workers now snapshot
        = (((get_all_workers workers now).countP fun p => p.2.status == "Active" : ℕ) : ℚ)
            * (1/100)
          + (snapshot.map fun p => penaltyOf p.2).sum ∧
    (update_ledger l (accountantTotal workers now snapshot) reason ts).balance
        = l.balance + accountantTotal workers now snapshot := by
  constructor
  · simp only [accountantTotal]
    rw [accountant_penalty_fold, accountant_reward_fold]
    ring
  · simp [update_ledger]

/-- C4 counterexample: a verified node whose efficiency index 0.07 is far
below the CRITICAL threshold 0.4, yet with the reasoning collaborator
unreachable (or returning malformed JSON) the Watchdog reports no anomaly
at all — the deterministic thresholds are never applied locally. -/
theorem watchdog_fallback_counterexample :
    watchdogProcess [("w1", witLowEff)] AiOutcome.unreachable = [] ∧
    watchdogProcess [("w1", witLowEff)] AiOutcome.malformed = [] ∧
    efficiencyIndex (mkRow "w1" witLowEff) < 4/10 := by
  refine ⟨rfl, rfl, ?_⟩
  norm_num [efficiencyIndex, mkRow, pyRound, witLowEff]

/-- C4 amended: when the external reasoning collaborator is unreachable
or returns malformed JSON, the Detector reports no anomalies for a
spoof-free snapshot (the source replies "System Healthy"); the
efficiency index is computed per node but serves only as input to the
collaborator, and the 0.4 / 0.7 severity thresholds are not enforced by
the Detector itself. -/
theorem watchdog_ai_failure_no_anomalies (snapshot : Dict TelemetryData)
    (h : ∀ p ∈ snapshot, p.2.integrity ≠ "SPOOFED") :
    watchdogProcess snapshot AiOutcome.unreachable = [] ∧
    watchdogProcess snapshot AiOutcome.malformed = [] := by
  have hfilter : ((snapshot.map fun p => mkRow p.1 p.2).filter
      fun r => r.integrity = "SPOOFED") = [] := by
    rw [List.filter_eq_nil_iff]
    intro r hr
    obtain ⟨p, hp, rfl⟩ := List.mem_map.mp hr
    simpa [mkRow] using h p hp
  constructor <;>
    · simp only [watchdogProcess, hfilter]
      rw [if_neg (fun hne => hne rfl)]
      split
      · rfl
      · rfl

/-- Witness for C4 amended on a spoof-free one-node snapshot. -/
theorem watchdog_ai_failure_witness :
    (∀ p ∈ [(("w1" : String), witClock50)], p.2.integrity ≠ "SPOOFED") ∧
    watchdogProcess [("w1", witClock50)] AiOutcome.unreachable = [] :=
  ⟨by decide, (watchdog_ai_failure_no_anomalies [("w1", witClock50)] (by decide)).1⟩

/-- C7: every snapshot node whose sample is marked SPOOFED yields the
immediate CRITICAL signature-spoofing anomaly, whatever its numeric
telemetry; and the Watchdog's output is then the same for every outcome
of the reasoning collaborator — scoring is short-circuited for that
tick. -/
theorem spoof_short_circuit (snapshot : Dict TelemetryData) (ai : AiOutcome)
    (wid : String) (t : TelemetryData)
    (hmem : (wid, t) ∈ snapshot) (hspoof : t.integrity = "SPOOFED") :
    (Anomaly.mk wid spoofReason none) ∈ watchdogProcess snapshot ai ∧
    (∀ ai2 : AiOutcome, watchdogProcess snapshot ai = watchdogProcess snapshot ai2) := by
  have hrow : mkRow wid t ∈ (snapshot.map fun p => mkRow p.1 p.2) :=
    List.mem_map.mpr ⟨(wid, t), hmem, rfl⟩
  have hfil : mkRow wid t ∈ ((snapshot.map fun p => mkRow p.1 p.2).filter
      fun r => r.integrity = "SPOOFED") :=
    List.mem_filter.mpr ⟨hrow, by simp [mkRow, hspoof]⟩
  have hne : ((snapshot.map fun p => mkRow p.1 p.2).filter
      fun r => r.integrity = "SPOOFED") ≠ [] := List.ne_nil_of_mem hfil
  constructor
  · simp only [watchdogProcess]
    rw [if_pos hne]
    exact List.mem_map.mpr ⟨mkRow wid t, hfil, rfl⟩
  · intro ai2
    simp only [watchdogProcess]
    rw [if_pos hne, if_pos hne]

/-- Witness for C7: a spoofed sample with perfect clock and low latency
still draws the CRITICAL spoofing anomaly. -/
theorem spoof_short_circuit_witness :
    (("w1", witSpoofed) ∈ [(("w1" : String), witSpoofed)]) ∧
    witSpoofed.integrity = "SPOOFED" ∧
    (Anomaly.mk "w1" spoofReason none)
        ∈ watchdogProcess [("w1", witSpoofed)] AiOutcome.unreachable :=
  ⟨List.mem_singleton.mpr rfl, rfl,
    (spoof_short_circuit [("w1", witSpoofed)] AiOutcome.unreachable "w1" witSpoofed
      (List.mem_singleton.mpr rfl) rfl).1⟩

/-- Strings with equal character data are equal. -/
theorem string_data_inj {s t : String} (h : s.data = t.data) : s = t := by
  cases s
  cases t
  exact congrArg String.mk h

/-- Left cancellation for string concatenation. -/
theorem string_append_cancel_left {a b c : String} (h : a ++ b = a ++ c) : b = c := by
  apply string_data_inj
  have hd : a.data ++ b.data = a.data ++ c.data := by
    rw [← String.data_append, ← String.data_append, h]
  exact List.append_cancel_left hd

/-- Right cancellation for string concatenation. -/
theorem string_append_cancel_right {a b c : String} (h : a ++ c = b ++ c) : a = b := by
  apply string_data_inj
  have hd : a.data ++ c.data = b.data ++ c.data := by
    rw [← String.data_append, ← String.data_append, h]
  exact List.append_cancel_right hd

/-- Distinct worker ids derive distinct honest secrets. -/
theorem secretKey_inj {w1 w2 : String} (h : secretKey w1 false = secretKey w2 false) :
    w1 = w2 := by
  have h0 : ("simulated_sk_" ++ w1) ++ "" = ("simulated_sk_" ++ w2) ++ "" := by
    simpa [secretKey] using h
  exact string_append_cancel_left (string_append_cancel_right h0)

/-- The pair MAC is injective as a function of key and message. -/
theorem pairMac_injective :
    Function.Injective (fun p : String × String => pairMac p.1 p.2) := by
  intro a b h
  simpa [pairMac] using h

/-- Unary rendering of naturals is injective. -/
theorem unaryNat_injective : Function.Injective unaryNat := by
  intro a b h
  have hd : List.replicate a 'a' = List.replicate b 'a' :=
    congrArg String.data h
  have hlen := congrArg List.length hd
  simpa using hlen

/-- Unary rendering of rationals is injective. -/
theorem unaryRat_injective : Function.Injective unaryRat :=
  fun _ _ h => Encodable.encode_injective (unaryNat_injective h)

/-- C1: verifying a freshly signed envelope yields VERIFIED for every
message, with any MAC function and any numeric formatting; and whenever
the MAC (jointly in key and message) and the two formatting functions are
injective — the idealisation of HMAC-SHA-256 and of Python's exact
numeric rendering — mutating any single envelope field after signing
makes verification yield SPOOFED. -/
theorem sign_verify_contract {σ : Type} [DecidableEq σ] (mac : String → String → σ)
    (fmtNat : ℕ → String) (fmtQ : ℚ → String) (m : TelemetryMsg) :
    verifyEnvelope mac fmtNat fmtQ (signEnvelope mac fmtNat fmtQ m) = "VERIFIED" ∧
    (Function.Injective (fun p : String × String => mac p.1 p.2) →
     Function.Injective fmtNat → Function.Injective fmtQ →
     ∀ e1 : Envelope σ, mutatedOneField (signEnvelope mac fmtNat fmtQ m) e1 →
       verifyEnvelope mac fmtNat fmtQ e1 = "SPOOFED") := by
  constructor
  · simp [verifyEnvelope, signEnvelope]
  · intro hmac hnat hq e1 hmut
    have hmac2 : ∀ k1 s1 k2 s2 : String, mac k1 s1 = mac k2 s2 → k1 = k2 ∧ s1 = s2 := by
      intro k1 s1 k2 s2 h
      have hp := @hmac (k1, s1) (k2, s2) h
      exact ⟨congrArg Prod.fst hp, congrArg Prod.snd hp⟩
    have hne : mac (secretKey e1.worker_id false)
        (canonicalString fmtNat fmtQ e1.worker_id e1.timestamp e1.latency e1.temperature)
        ≠ e1.signature := by
      rcases hmut with ⟨hw, ht, hl, htemp, hs⟩ | ⟨hw, ht, hl, htemp, hs⟩ |
        ⟨hw, ht, hl, htemp, hs⟩ | ⟨hw, ht, hl, htemp, hs⟩ | ⟨hw, ht, hl, htemp, hs⟩ <;>
        simp only [signEnvelope] at hw ht hl htemp hs
      · rw [hs]
        intro heq
        obtain ⟨hk, -⟩ := hmac2 _ _ _ _ heq
        exact hw (secretKey_inj hk)
      · rw [hs, hw, hl, htemp]
        intro heq
        obtain ⟨-, hc⟩ := hmac2 _ _ _ _ heq
        simp only [canonicalString] at hc
        have h1 := string_append_cancel_right hc
        have h2 := string_append_cancel_right h1
        have h3 := string_append_cancel_right h2
        have h4 := string_append_cancel_right h3
        have h5 := string_append_cancel_left h4
        exact ht (hnat h5)
      · rw [hs, hw, ht, htemp]
        intro heq
        obtain ⟨-, hc⟩ := hmac2 _ _ _ _ heq
        simp only [canonicalString] at hc
        have h1 := string_append_cancel_right hc
        have h2 := string_append_cancel_right h1
        have h3 := string_append_cancel_left h2
        exact hl (hq h3)
      · rw [hs, hw, ht, hl]
        intro heq
        obtain ⟨-, hc⟩ := hmac2 _ _ _ _ heq
        simp only [canonicalString] at hc
        have h1 := string_append_cancel_left hc
        exact htemp (hq h1)
      · rw [hw, ht, hl, htemp]
        intro heq
        exact hs heq.symm
    simp only [verifyEnvelope]
    rw [if_neg hne]

/-- Witness for C1: signing and verifying a concrete message with the
tagging MAC and the injective unary formats; mutating the timestamp from
5 to 6 flips the verdict to SPOOFED. -/
theorem sign_verify_contract_witness :
    verifyEnvelope pairMac unaryNat unaryRat (signEnvelope pairMac unaryNat unaryRat witMsg)
        = "VERIFIED" ∧
    mutatedOneField (signEnvelope pairMac unaryNat unaryRat witMsg)
        { signEnvelope pairMac unaryNat unaryRat witMsg with timestamp := 6 } ∧
    verifyEnvelope pairMac unaryNat unaryRat
        { signEnvelope pairMac unaryNat unaryRat witMsg with timestamp := 6 } = "SPOOFED" :=
  ⟨(sign_verify_contract pairMac unaryNat unaryRat witMsg).1,
   Or.inr (Or.inl ⟨rfl, by decide, rfl, rfl, rfl⟩),
   (sign_verify_contract pairMac unaryNat unaryRat witMsg).2 pairMac_injective
     unaryNat_injective unaryRat_injective
     { signEnvelope pairMac unaryNat unaryRat witMsg with timestamp := 6 }
     (Or.inr (Or.inl ⟨rfl, by decide, rfl, rfl, rfl⟩))⟩

end Sentinel
